import Mathlib

/-!
Shallow embedding of the Battery Health Guardian core
(battery_guardian/battery_monitor.py, battery_guardian/config.py,
battery_guardian/tray_app.py, and the escalation engine in
code-backups/backup_20260117_042251/alert_manager.py, with WarningStage
from code-backups/backup_20260117_035901/dialogs.py).

Time is discretized: one `tick` of the escalation loop corresponds to one
iteration of `AlertManager._escalation_loop` (one second), and the
shutdown-countdown monitor `AlertManager._monitor_during_shutdown` is
likewise advanced one second per tick.  Side effects on the Warning
Presenter / Shutdown Trigger collaborators are recorded as an `Event`
trace.
-/

namespace BatteryGuardian

/-- Embeds `dialogs.WarningStage`: the four escalation stages. -/
inductive WarningStage where
  | TOAST
  | POPUP
  | MODAL
  | SHUTDOWN
deriving DecidableEq, Repr

/-- Embeds `battery_monitor.ChargingState`. -/
inductive ChargingState where
  | CHARGING
  | DISCHARGING
  | FULL
  | NOT_CHARGING
  | UNKNOWN
deriving DecidableEq, Repr

/-- Embeds `battery_monitor.BatteryStatus`: immutable snapshot of a power sample. -/
structure BatteryStatus where
  percent : Int
  is_plugged : Bool
  charging_state : ChargingState
  time_remaining : Option Int
deriving DecidableEq, Repr

/-- Embeds `alert_manager.AlertState` (dataclass with zero-value defaults). -/
structure AlertState where
  warning_count : Nat
  elapsed_seconds : Nat
  is_active : Bool
  current_stage : WarningStage
  shutdown_initiated : Bool
deriving DecidableEq, Repr

/-- The idle zero-value `AlertState()` produced by the dataclass defaults. -/
def AlertState.idle : AlertState :=
  { warning_count := 0, elapsed_seconds := 0, is_active := false,
    current_stage := WarningStage.TOAST, shutdown_initiated := false }

/-- The configuration values the escalation engine reads through
`ConfigManager.get` (already-validated integers). -/
structure EscalationConfig where
  battery_threshold : Int
  warning_interval_seconds : Nat
  max_warnings : Nat
  max_time_minutes : Nat
  shutdown_countdown_seconds : Nat
deriving DecidableEq, Repr

/-- Side effects on the Warning Presenter and Shutdown Trigger
collaborators, in invocation order. -/
inductive Event where
  | showWarning (count : Nat) (stage : WarningStage)
  | showShutdownWarning (countdown : Nat)
  | closeAll
  | triggerShutdown (countdown : Nat)
  | cancelShutdown
deriving DecidableEq, Repr

/-- Stage selection in `AlertManager._show_next_warning`:
`count <= 1 → TOAST`, `count <= 5 → POPUP`, otherwise `MODAL`. -/
def stageFor (count : Nat) : WarningStage :=
  if count ≤ 1 then WarningStage.TOAST
  else if count ≤ 5 then WarningStage.POPUP
  else WarningStage.MODAL

/-- Control position of the escalation thread: inside
`_escalation_loop`, inside `_monitor_during_shutdown`, or returned. -/
inductive Phase where
  | escalating
  | shutdownMonitor
  | stopped
deriving DecidableEq, Repr

/-- State of the `AlertManager` plus loop-local bookkeeping:
`sinceLastWarning` discretizes `time.time() - last_warning_time`, and
`monitorRemaining` the remaining seconds of `_monitor_during_shutdown`. -/
structure LoopState where
  state : AlertState
  sinceLastWarning : Nat
  phase : Phase
  monitorRemaining : Nat
deriving DecidableEq, Repr

/-- Embeds `AlertManager._stop_alert_sequence`: no-op when idle; otherwise reset
state to the zero value, stop the loop, close all dialogs, and cancel the
system shutdown when one had been initiated. -/
def stopAlertSequence (ls : LoopState) : LoopState × List Event :=
  if ls.state.is_active then
    ({ state := AlertState.idle, sinceLastWarning := 0,
       phase := Phase.stopped, monitorRemaining := 0 },
     Event.closeAll ::
       (if ls.state.shutdown_initiated then [Event.cancelShutdown] else []))
  else (ls, [])

/-- Embeds `AlertManager._start_alert_sequence`: no-op when already active;
otherwise install a fresh active state and show the initial toast (the
dialog is passed the literal `warning_count=1` while the state keeps 0). -/
def startAlertSequence (ls : LoopState) : LoopState × List Event :=
  if ls.state.is_active then (ls, [])
  else
    ({ state := { warning_count := 0, elapsed_seconds := 0, is_active := true,
                  current_stage := WarningStage.TOAST, shutdown_initiated := false },
       sinceLastWarning := 0, phase := Phase.escalating, monitorRemaining := 0 },
     [Event.showWarning 1 WarningStage.TOAST])

/-- Embeds `AlertManager.handle_battery_status`. -/
def handleBatteryStatus (cfg : EscalationConfig) (status : BatteryStatus)
    (ls : LoopState) : LoopState × List Event :=
  if status.is_plugged ∧ status.percent ≥ cfg.battery_threshold then
    if ls.state.is_active then (ls, []) else startAlertSequence ls
  else
    if ls.state.is_active then stopAlertSequence ls else (ls, [])

/-- Delivery of one successful sample through the subscriptions that
`BatteryTrayApp.__init__` registers on the Power Sampler: the every-sample
subscriber `_on_battery_status` only updates the tray icon, and the
threshold subscriber `(battery_threshold, _on_threshold_reached)` — which
forwards to `AlertManager.handle_battery_status` — runs only when
`is_plugged && percent >= battery_threshold`
(`BatteryMonitor._notify_callbacks`). -/
def deliverSample (cfg : EscalationConfig) (status : BatteryStatus)
    (ls : LoopState) : LoopState × List Event :=
  if status.is_plugged ∧ status.percent ≥ cfg.battery_threshold then
    handleBatteryStatus cfg status ls
  else (ls, [])

/-- One second of the escalation thread.  In `Phase.escalating` this is one
iteration of `AlertManager._escalation_loop`: update `elapsed_seconds`;
stop if the last known status is unplugged; else initiate shutdown when
`warning_count >= max_warnings` or `elapsed_seconds >= max_time_minutes*60`
and not already initiated; else show the next warning when the warning
interval has passed.  In `Phase.shutdownMonitor` it is one second of
`AlertManager._monitor_during_shutdown`: exit when the countdown has
elapsed, stop the sequence if the last status is unplugged. -/
def tick (cfg : EscalationConfig) (last : Option BatteryStatus)
    (ls : LoopState) : LoopState × List Event :=
  match ls.phase with
  | Phase.stopped => (ls, [])
  | Phase.escalating =>
    let st := ls.state
    let elapsed2 := st.elapsed_seconds + 1
    let unplugged : Bool :=
      match last with
      | some s => !s.is_plugged
      | none => false
    if unplugged then
      stopAlertSequence { ls with state := { st with elapsed_seconds := elapsed2 } }
    else
      if (st.warning_count ≥ cfg.max_warnings ∨
            elapsed2 ≥ cfg.max_time_minutes * 60) ∧ ¬st.shutdown_initiated then
        let st2 : AlertState :=
          { warning_count := st.warning_count, elapsed_seconds := elapsed2,
            is_active := st.is_active,
            current_stage := WarningStage.SHUTDOWN, shutdown_initiated := true }
        ({ state := st2, sinceLastWarning := ls.sinceLastWarning,
           phase := Phase.shutdownMonitor,
           monitorRemaining := cfg.shutdown_countdown_seconds },
         [Event.closeAll,
          Event.showShutdownWarning cfg.shutdown_countdown_seconds,
          Event.triggerShutdown cfg.shutdown_countdown_seconds])
      else if ls.sinceLastWarning + 1 ≥ cfg.warning_interval_seconds then
        let count2 := st.warning_count + 1
        let st2 : AlertState :=
          { warning_count := count2, elapsed_seconds := elapsed2,
            is_active := st.is_active,
            current_stage := stageFor count2,
            shutdown_initiated := st.shutdown_initiated }
        ({ state := st2, sinceLastWarning := 0, phase := Phase.escalating,
           monitorRemaining := ls.monitorRemaining },
         [Event.closeAll, Event.showWarning count2 (stageFor count2)])
      else
        ({ state := { st with elapsed_seconds := elapsed2 },
           sinceLastWarning := ls.sinceLastWarning + 1,
           phase := Phase.escalating,
           monitorRemaining := ls.monitorRemaining },
         [])
  | Phase.shutdownMonitor =>
    if ls.monitorRemaining = 0 then
      ({ ls with phase := Phase.stopped }, [])
    else
      match last with
      | some s =>
        if !s.is_plugged then stopAlertSequence ls
        else ({ ls with monitorRemaining := ls.monitorRemaining - 1 }, [])
      | none => ({ ls with monitorRemaining := ls.monitorRemaining - 1 }, [])

/-- State after `n` ticks with a constant last known status. -/
def stepN (cfg : EscalationConfig) (last : Option BatteryStatus)
    (ls : LoopState) : Nat → LoopState
  | 0 => ls
  | n + 1 => (tick cfg last (stepN cfg last ls n)).1

/-- Events emitted by the `n`-th tick (`n ≥ 1`) with a constant last
known status. -/
def eventsAtTick (cfg : EscalationConfig) (last : Option BatteryStatus)
    (ls : LoopState) (n : Nat) : List Event :=
  (tick cfg last (stepN cfg last ls (n - 1))).2

/-- Run the loop over a list of per-tick last-known statuses, collecting
all emitted events. -/
def runEvents (cfg : EscalationConfig) (ls : LoopState) :
    List (Option BatteryStatus) → LoopState × List Event
  | [] => (ls, [])
  | s :: rest =>
    let r1 := tick cfg s ls
    let r2 := runEvents cfg r1.1 rest
    (r2.1, r1.2 ++ r2.2)

/-- Whether an event is a Shutdown Trigger schedule call
(`trigger_system_shutdown`). -/
def Event.isTrigger : Event → Bool
  | Event.triggerShutdown _ => true
  | _ => false

/-- Number of Shutdown Trigger schedule calls in a trace. -/
def triggerCount (evs : List Event) : Nat :=
  (evs.filter Event.isTrigger).length

/-! ### Power query (`BatteryMonitor.get_battery_status`) -/

/-- Outcome of the platform query `psutil.sensors_battery()` inside the
`try` block: a battery reading, `None` (no battery present), or a raised
exception. -/
inductive PsutilResult where
  | battery (percent : Int) (power_plugged : Bool) (secsleft : Int)
  | noBattery
  | queryError
deriving DecidableEq, Repr

/-- Embeds `psutil.POWER_TIME_UNLIMITED` (the sentinel `-2`). -/
def POWER_TIME_UNLIMITED : Int := -2

/-- Embeds `BatteryMonitor.get_battery_status`: builds a `BatteryStatus` from the
platform reading; returns `None` both when no battery is detected and when
the query raises (the `except` clause logs and returns `None`). -/
def getBatteryStatus : PsutilResult → Option BatteryStatus
  | PsutilResult.battery p plugged secs =>
    some { percent := p, is_plugged := plugged,
           charging_state :=
             if plugged then
               (if p ≥ 100 then ChargingState.FULL else ChargingState.CHARGING)
             else ChargingState.DISCHARGING,
           time_remaining :=
             if secs = POWER_TIME_UNLIMITED then none else some secs }
  | PsutilResult.noBattery => none
  | PsutilResult.queryError => none

/-! ### Subscriber notification (`BatteryMonitor._notify_callbacks`)

Subscribers are abstract identities of type `α`; `beh c = true` models the
call `c(status)` raising an exception. -/

/-- One `callback(status)` call: reports whether the callback raised. -/
def invokeSubscriber (beh : α → Bool) (c : α) : Except Unit Unit :=
  if beh c then Except.error () else Except.ok ()

/-- Body of `for callback in self._callbacks:` — the call is wrapped in
`try`/`except`, so both outcomes extend the invocation list and an error
only bumps the caught-error count. -/
def notifyStep (beh : α → Bool) (acc : List α × Nat) (c : α) : List α × Nat :=
  match invokeSubscriber beh c with
  | Except.ok _ => (acc.1 ++ [c], acc.2)
  | Except.error _ => (acc.1 ++ [c], acc.2 + 1)

/-- Body of the threshold-callback loop: invoke (with `try`/`except`) only
when `status.percent >= threshold`. -/
def thresholdStep (beh : α → Bool) (s : BatteryStatus)
    (acc : List α × Nat) (tc : Int × α) : List α × Nat :=
  if s.percent ≥ tc.1 then notifyStep beh acc tc.2 else acc

/-- Embeds `BatteryMonitor._notify_callbacks`: every-sample subscribers first, in
list order; then, only when `status.is_plugged`, the `(threshold,
callback)` pairs in list order.  Returns the invocation sequence and the
number of caught subscriber exceptions. -/
def notifyCallbacks (beh : α → Bool) (cbs : List α) (tcbs : List (Int × α))
    (s : BatteryStatus) : List α × Nat :=
  let r1 := cbs.foldl (notifyStep beh) ([], 0)
  if s.is_plugged then tcbs.foldl (thresholdStep beh s) r1 else r1

/-- One iteration of `BatteryMonitor._monitor_loop` (its body is wrapped in
`try`/`except`, and `_notify_callbacks` catches subscriber errors itself):
on a successful sample update `_last_status` and notify; the `_running`
flag is only ever cleared by `stop()`, never by a subscriber exception.
Returns the new last status, the invocation sequence, and the loop's
continuation flag. -/
def monitorLoopIter (beh : α → Bool) (cbs : List α) (tcbs : List (Int × α))
    (sres : Option BatteryStatus) (lastStatus : Option BatteryStatus)
    (running : Bool) : Option BatteryStatus × List α × Bool :=
  if running then
    match sres with
    | some s => (some s, (notifyCallbacks beh cbs tcbs s).1, running)
    | none => (lastStatus, [], running)
  else (lastStatus, [], running)

/-! ### Configuration (`config.py`)

The configuration dictionary has the ten keys of `DEFAULT_CONFIG`;
a field is `none` when the key is absent from the dictionary.  Values are
JSON scalars as the code stores them: integers and booleans (a Python
`bool` is an `int` subclass, so arithmetic sees `True = 1`, `False = 0`). -/

/-- A configuration value: JSON integer or boolean. -/
inductive CVal where
  | int (n : Int)
  | bool (b : Bool)
deriving DecidableEq, Repr

/-- A configuration dictionary restricted to the ten known keys. -/
structure ConfigDict where
  battery_threshold : Option CVal
  check_interval_seconds : Option CVal
  warning_interval_seconds : Option CVal
  max_warnings : Option CVal
  max_time_minutes : Option CVal
  shutdown_countdown_seconds : Option CVal
  auto_start_with_windows : Option CVal
  enable_sounds : Option CVal
  low_battery_alert : Option CVal
  low_battery_threshold : Option CVal
deriving DecidableEq, Repr

/-- Embeds `config.DEFAULT_CONFIG`. -/
def DEFAULT_CONFIG : ConfigDict where
  battery_threshold := some (CVal.int 95)
  check_interval_seconds := some (CVal.int 30)
  warning_interval_seconds := some (CVal.int 30)
  max_warnings := some (CVal.int 10)
  max_time_minutes := some (CVal.int 5)
  shutdown_countdown_seconds := some (CVal.int 60)
  auto_start_with_windows := some (CVal.bool true)
  enable_sounds := some (CVal.bool true)
  low_battery_alert := some (CVal.bool false)
  low_battery_threshold := some (CVal.int 20)

/-- Embeds `config.get(key, default)` followed by integer arithmetic: a present
integer is used as is, a present boolean is the integer `1`/`0`, an absent
key yields the default. -/
def getNum (v : Option CVal) (d : Int) : Int :=
  match v with
  | some (CVal.int n) => n
  | some (CVal.bool b) => if b then 1 else 0
  | none => d

/-- The merge in `load_config`: `config = DEFAULT_CONFIG.copy();
config.update(user_config)` — a present user value wins, an absent key
keeps the default. -/
def mergeField (user : Option CVal) (d : Option CVal) : Option CVal :=
  match user with
  | some v => some v
  | none => d

/-- The merge in `load_config` (continued): field-by-field override. -/
def mergeDefaults (user : ConfigDict) : ConfigDict where
  battery_threshold := mergeField user.battery_threshold DEFAULT_CONFIG.battery_threshold
  check_interval_seconds := mergeField user.check_interval_seconds DEFAULT_CONFIG.check_interval_seconds
  warning_interval_seconds := mergeField user.warning_interval_seconds DEFAULT_CONFIG.warning_interval_seconds
  max_warnings := mergeField user.max_warnings DEFAULT_CONFIG.max_warnings
  max_time_minutes := mergeField user.max_time_minutes DEFAULT_CONFIG.max_time_minutes
  shutdown_countdown_seconds := mergeField user.shutdown_countdown_seconds DEFAULT_CONFIG.shutdown_countdown_seconds
  auto_start_with_windows := mergeField user.auto_start_with_windows DEFAULT_CONFIG.auto_start_with_windows
  enable_sounds := mergeField user.enable_sounds DEFAULT_CONFIG.enable_sounds
  low_battery_alert := mergeField user.low_battery_alert DEFAULT_CONFIG.low_battery_alert
  low_battery_threshold := mergeField user.low_battery_threshold DEFAULT_CONFIG.low_battery_threshold

/-- Embeds `save_config` then `load_config` on the written file: JSON serializes
the integer and boolean values exactly, so the round trip is the
merge-with-defaults of `load_config`. -/
def saveThenLoad (cfg : ConfigDict) : ConfigDict :=
  mergeDefaults cfg

/-- Embeds `config.validate_config`: copy the dictionary and clamp the six
numeric keys into range (absent keys clamp their defaults). -/
def validateConfig (config : ConfigDict) : ConfigDict :=
  { config with
    battery_threshold :=
      some (CVal.int (max 50 (min 100 (getNum config.battery_threshold 95))))
    check_interval_seconds :=
      some (CVal.int (max 5 (getNum config.check_interval_seconds 30)))
    warning_interval_seconds :=
      some (CVal.int (max 10 (getNum config.warning_interval_seconds 30)))
    max_warnings :=
      some (CVal.int (max 1 (min 50 (getNum config.max_warnings 10))))
    max_time_minutes :=
      some (CVal.int (max 1 (min 60 (getNum config.max_time_minutes 5))))
    shutdown_countdown_seconds :=
      some (CVal.int (max 30 (min 300 (getNum config.shutdown_countdown_seconds 60)))) }

/-- A key of the configuration dictionary. -/
inductive ConfigKey where
  | battery_threshold
  | check_interval_seconds
  | warning_interval_seconds
  | max_warnings
  | max_time_minutes
  | shutdown_countdown_seconds
  | auto_start_with_windows
  | enable_sounds
  | low_battery_alert
  | low_battery_threshold
deriving DecidableEq, Repr

/-- Embeds `self._config[key] = value` for one key. -/
def setField (c : ConfigDict) (k : ConfigKey) (v : CVal) : ConfigDict :=
  match k with
  | ConfigKey.battery_threshold => { c with battery_threshold := some v }
  | ConfigKey.check_interval_seconds => { c with check_interval_seconds := some v }
  | ConfigKey.warning_interval_seconds => { c with warning_interval_seconds := some v }
  | ConfigKey.max_warnings => { c with max_warnings := some v }
  | ConfigKey.max_time_minutes => { c with max_time_minutes := some v }
  | ConfigKey.shutdown_countdown_seconds => { c with shutdown_countdown_seconds := some v }
  | ConfigKey.auto_start_with_windows => { c with auto_start_with_windows := some v }
  | ConfigKey.enable_sounds => { c with enable_sounds := some v }
  | ConfigKey.low_battery_alert => { c with low_battery_alert := some v }
  | ConfigKey.low_battery_threshold => { c with low_battery_threshold := some v }

/-- In-memory configuration plus the configuration file's contents. -/
structure ManagerState where
  mem : ConfigDict
  file : ConfigDict
deriving DecidableEq, Repr

/-- Embeds `ConfigManager.set`: mutate the key, re-validate the in-memory
dictionary, attempt the save (`saveOk` is `save_config`'s return value);
listeners are notified only inside `if save_config(...)`.  Returns the new
state and whether listeners were notified. -/
def configSet (st : ManagerState) (k : ConfigKey) (v : CVal)
    (saveOk : Bool) : ManagerState × Bool :=
  let c2 := validateConfig (setField st.mem k v)
  if saveOk then ({ mem := c2, file := c2 }, true)
  else ({ mem := c2, file := st.file }, false)

/-- Embeds `ConfigManager.update`: `self._config.update(updates)` applied in
order, re-validate, attempt the save; listeners notified only on a
successful save. -/
def configUpdate (st : ManagerState) (updates : List (ConfigKey × CVal))
    (saveOk : Bool) : ManagerState × Bool :=
  let c2 := validateConfig
    (updates.foldl (fun c kv => setField c kv.1 kv.2) st.mem)
  if saveOk then ({ mem := c2, file := c2 }, true)
  else ({ mem := c2, file := st.file }, false)

/-! ### Predicates and concrete fixtures -/

/-- The escalation thread is still running its loop: either inside
`_escalation_loop`, or inside `_monitor_during_shutdown` with countdown
time left. -/
def loopLive (ls : LoopState) : Prop :=
  ls.phase = Phase.escalating ∨
    (ls.phase = Phase.shutdownMonitor ∧ ls.monitorRemaining ≠ 0)

/-- The sequence can schedule no further shutdown: it already has
(`shutdown_initiated`), or its loop has returned. -/
def seqDone (ls : LoopState) : Prop :=
  ls.state.shutdown_initiated = true ∨ ls.phase = Phase.stopped

/-- Every key of the configuration dictionary is present. -/
def allKeysPresent (c : ConfigDict) : Prop :=
  c.battery_threshold.isSome = true ∧
  c.check_interval_seconds.isSome = true ∧
  c.warning_interval_seconds.isSome = true ∧
  c.max_warnings.isSome = true ∧
  c.max_time_minutes.isSome = true ∧
  c.shutdown_countdown_seconds.isSome = true ∧
  c.auto_start_with_windows.isSome = true ∧
  c.enable_sounds.isSome = true ∧
  c.low_battery_alert.isSome = true ∧
  c.low_battery_threshold.isSome = true

/-- The configuration dictionary with every key absent (`{}`). -/
def emptyConfig : ConfigDict where
  battery_threshold := none
  check_interval_seconds := none
  warning_interval_seconds := none
  max_warnings := none
  max_time_minutes := none
  shutdown_countdown_seconds := none
  auto_start_with_windows := none
  enable_sounds := none
  low_battery_alert := none
  low_battery_threshold := none

/-- The scenario configuration of the spec: threshold 95, warning interval
30 s, max 10 warnings, max 5 minutes, 60 s shutdown countdown. -/
def cfg95 : EscalationConfig where
  battery_threshold := 95
  warning_interval_seconds := 30
  max_warnings := 10
  max_time_minutes := 5
  shutdown_countdown_seconds := 60

/-- A plugged sample at 96 % (above the threshold 95). -/
def s96 : BatteryStatus where
  percent := 96
  is_plugged := true
  charging_state := ChargingState.CHARGING
  time_remaining := none

/-- A plugged sample at 94 % (below the threshold 95). -/
def s94 : BatteryStatus where
  percent := 94
  is_plugged := true
  charging_state := ChargingState.CHARGING
  time_remaining := none

/-- An unplugged sample. -/
def sUnplugged : BatteryStatus where
  percent := 80
  is_plugged := false
  charging_state := ChargingState.DISCHARGING
  time_remaining := none

/-- The manager before any sequence: idle state, no loop running. -/
def idleLoop : LoopState where
  state := AlertState.idle
  sinceLastWarning := 0
  phase := Phase.stopped
  monitorRemaining := 0

/-- The loop state `_start_alert_sequence` installs: a fresh active
sequence about to run its first loop iteration. -/
def freshActive : LoopState where
  state :=
    { warning_count := 0, elapsed_seconds := 0, is_active := true,
      current_stage := WarningStage.TOAST, shutdown_initiated := false }
  sinceLastWarning := 0
  phase := Phase.escalating
  monitorRemaining := 0

/-- A mid-sequence state: three warnings shown, 90 s elapsed, POPUP stage,
no shutdown initiated, escalation loop running. -/
def lsActive3 : LoopState where
  state :=
    { warning_count := 3, elapsed_seconds := 90, is_active := true,
      current_stage := WarningStage.POPUP, shutdown_initiated := false }
  sinceLastWarning := 0
  phase := Phase.escalating
  monitorRemaining := 0

/-- A state in the shutdown countdown: shutdown initiated, monitor running
with 60 s left. -/
def lsPending : LoopState where
  state :=
    { warning_count := 9, elapsed_seconds := 300, is_active := true,
      current_stage := WarningStage.SHUTDOWN, shutdown_initiated := true }
  sinceLastWarning := 29
  phase := Phase.shutdownMonitor
  monitorRemaining := 60

/-! ### Theorems -/

set_option maxRecDepth 40000

/-- C6 counterexample: `get_battery_status` returns the same value,
`None`, for no-battery and for a transient query failure — the
"unavailable" outcome is not distinguishable from an error at the
interface. -/
theorem c6_unavailable_indistinguishable_from_error :
    getBatteryStatus PsutilResult.noBattery = getBatteryStatus PsutilResult.queryError ∧
    getBatteryStatus PsutilResult.noBattery = none :=
  ⟨rfl, rfl⟩

/-- C6 amended: the power query returns `None` exactly when no battery is
present or the query fails, and a status otherwise — it has two separable
outcomes, not three; no-battery and transient failure are merged. -/
theorem c6_sample_none_iff (r : PsutilResult) :
    getBatteryStatus r = none ↔
      r = PsutilResult.noBattery ∨ r = PsutilResult.queryError := by
  cases r <;> simp [getBatteryStatus]

/-- C7 counterexample: for the empty dictionary, saving and re-loading
merges in the default values of keys `validate_config` does not touch
(for example `auto_start_with_windows`), so
`validate(save_then_load(cfg))` differs from `validate(cfg)`. -/
theorem c7_roundtrip_counterexample :
    validateConfig (saveThenLoad emptyConfig) ≠ validateConfig emptyConfig := by
  decide

/-- C7 amended: the round trip `validate(save_then_load(cfg)) ==
validate(cfg)` holds for every dictionary in which all ten keys are
present (in or out of range), since the load-time merge with defaults is
then the identity. -/
theorem c7_roundtrip_validate (cfg : ConfigDict) (h : allKeysPresent cfg) :
    validateConfig (saveThenLoad cfg) = validateConfig cfg := by
  have hmerge : saveThenLoad cfg = cfg := by
    obtain ⟨f1, f2, f3, f4, f5, f6, f7, f8, f9, f10⟩ := cfg
    simp only [allKeysPresent] at h
    obtain ⟨h1, h2, h3, h4, h5, h6, h7, h8, h9, h10⟩ := h
    obtain ⟨v1, rfl⟩ := Option.isSome_iff_exists.mp h1
    obtain ⟨v2, rfl⟩ := Option.isSome_iff_exists.mp h2
    obtain ⟨v3, rfl⟩ := Option.isSome_iff_exists.mp h3
    obtain ⟨v4, rfl⟩ := Option.isSome_iff_exists.mp h4
    obtain ⟨v5, rfl⟩ := Option.isSome_iff_exists.mp h5
    obtain ⟨v6, rfl⟩ := Option.isSome_iff_exists.mp h6
    obtain ⟨v7, rfl⟩ := Option.isSome_iff_exists.mp h7
    obtain ⟨v8, rfl⟩ := Option.isSome_iff_exists.mp h8
    obtain ⟨v9, rfl⟩ := Option.isSome_iff_exists.mp h9
    obtain ⟨v10, rfl⟩ := Option.isSome_iff_exists.mp h10
    rfl
  rw [hmerge]

/-- C7 witness: the round-trip equality at the fully-populated default
dictionary. -/
theorem c7_roundtrip_witness :
    allKeysPresent DEFAULT_CONFIG ∧
      validateConfig (saveThenLoad DEFAULT_CONFIG) = validateConfig DEFAULT_CONFIG :=
  ⟨by unfold allKeysPresent; decide,
   c7_roundtrip_validate DEFAULT_CONFIG (by unfold allKeysPresent; decide)⟩

/-- C10: when `save_config` fails, `ConfigManager.set` and
`ConfigManager.update` still leave the in-memory dictionary mutated and
re-validated, the file untouched, and listeners unnotified; notification
happens exactly when the save succeeds. -/
theorem c10_failed_save_behavior (st : ManagerState) (k : ConfigKey) (v : CVal)
    (us : List (ConfigKey × CVal)) :
    (configSet st k v false).1.mem = validateConfig (setField st.mem k v) ∧
    (configSet st k v false).2 = false ∧
    (configSet st k v false).1.file = st.file ∧
    (configSet st k v true).2 = true ∧
    (configUpdate st us false).1.mem =
      validateConfig (us.foldl (fun c kv => setField c kv.1 kv.2) st.mem) ∧
    (configUpdate st us false).2 = false ∧
    (configUpdate st us false).1.file = st.file ∧
    (configUpdate st us true).2 = true := by
  simp [configSet, configUpdate]

/-- C1: with the registered subscriptions, a plugged sample below the
threshold while the controller is active reaches neither
`handle_battery_status` (the threshold subscriber does not fire below
threshold, and the every-sample subscriber only redraws the tray icon) nor
the escalation loop's unplug check — after the sample's delivery and a
further 30 ticks (one full sampling interval) the controller is still
active, nothing was closed, and no shutdown cancel was requested. -/
theorem c1_below_threshold_plugged_not_cancelled :
    (deliverSample cfg95 s94 lsActive3).1 = lsActive3 ∧
    (deliverSample cfg95 s94 lsActive3).2 = [] ∧
    (runEvents cfg95 lsActive3 (List.replicate 30 (some s94))).1.state.is_active = true ∧
    (runEvents cfg95 lsActive3 (List.replicate 30 (some s94))).1.state ≠ AlertState.idle ∧
    Event.cancelShutdown ∉ (runEvents cfg95 lsActive3 (List.replicate 30 (some s94))).2 := by
  decide

/-- C2 counterexample: in the spec's scenario the warning presented at
t = 30 s is warning 1 at TOAST stage (not warning 2 at POPUP), and at
t = 150 s it is warning 5 at POPUP stage (not warning 6 at MODAL) — the
sequence starts with `warning_count = 0`, so the n-th interval shows
warning n. -/
theorem c2_scenario_counterexample :
    eventsAtTick cfg95 (some s96) (deliverSample cfg95 s96 idleLoop).1 30 =
      [Event.closeAll, Event.showWarning 1 WarningStage.TOAST] ∧
    Event.showWarning 2 WarningStage.POPUP ∉
      eventsAtTick cfg95 (some s96) (deliverSample cfg95 s96 idleLoop).1 30 ∧
    eventsAtTick cfg95 (some s96) (deliverSample cfg95 s96 idleLoop).1 150 =
      [Event.closeAll, Event.showWarning 5 WarningStage.POPUP] ∧
    Event.showWarning 6 WarningStage.MODAL ∉
      eventsAtTick cfg95 (some s96) (deliverSample cfg95 s96 idleLoop).1 150 := by
  decide

/-- C2 amended: under threshold 95, interval 30 s, max time 5 min, max 10
warnings, countdown 60 s: a plugged sample at 96 % immediately enters
ACTIVE(TOAST); the warning at t = 30 s is warning 1 at TOAST stage; the
warning at t = 150 s is warning 5 at POPUP stage; and at t = 300 s, with 9
warnings shown (fewer than 10) and 300 s elapsed, the controller enters
SHUTDOWN_PENDING and the 60 s countdown starts. -/
theorem c2_scenario_amended :
    (deliverSample cfg95 s96 idleLoop).1 = freshActive ∧
    (deliverSample cfg95 s96 idleLoop).2 = [Event.showWarning 1 WarningStage.TOAST] ∧
    freshActive.state.is_active = true ∧
    freshActive.state.current_stage = WarningStage.TOAST ∧
    eventsAtTick cfg95 (some s96) freshActive 30 =
      [Event.closeAll, Event.showWarning 1 WarningStage.TOAST] ∧
    eventsAtTick cfg95 (some s96) freshActive 150 =
      [Event.closeAll, Event.showWarning 5 WarningStage.POPUP] ∧
    (stepN cfg95 (some s96) freshActive 299).state.warning_count = 9 ∧
    (stepN cfg95 (some s96) freshActive 299).state.shutdown_initiated = false ∧
    eventsAtTick cfg95 (some s96) freshActive 300 =
      [Event.closeAll, Event.showShutdownWarning 60, Event.triggerShutdown 60] ∧
    (stepN cfg95 (some s96) freshActive 300).state.shutdown_initiated = true ∧
    (stepN cfg95 (some s96) freshActive 300).state.current_stage = WarningStage.SHUTDOWN ∧
    (stepN cfg95 (some s96) freshActive 300).state.warning_count = 9 ∧
    (stepN cfg95 (some s96) freshActive 300).state.warning_count < cfg95.max_warnings ∧
    (stepN cfg95 (some s96) freshActive 300).state.elapsed_seconds = 300 ∧
    (stepN cfg95 (some s96) freshActive 300).phase = Phase.shutdownMonitor := by
  decide

/-- C3: any unplugged sample observed while the escalation or
shutdown-monitor loop is running drives the controller back to the idle
zero-value (so `warning_count = 0`) in that very tick, stops the loop, and
issues a Shutdown Trigger cancel exactly when a delayed shutdown command
had been scheduled in this sequence. -/
theorem c3_unplug_resets_within_one_tick (cfg : EscalationConfig)
    (s : BatteryStatus) (ls : LoopState) (hlive : loopLive ls)
    (hact : ls.state.is_active = true) (hplug : s.is_plugged = false) :
    (tick cfg (some s) ls).1.state = AlertState.idle ∧
    (tick cfg (some s) ls).1.state.warning_count = 0 ∧
    (tick cfg (some s) ls).1.phase = Phase.stopped ∧
    (Event.cancelShutdown ∈ (tick cfg (some s) ls).2 ↔
      ls.state.shutdown_initiated = true) := by
  obtain ⟨st, sl, ph, mr⟩ := ls
  simp only [loopLive] at hlive
  replace hact : st.is_active = true := hact
  rcases hlive with h | ⟨h, hmr⟩ <;> subst h
  · cases hsi : st.shutdown_initiated <;>
      simp [tick, stopAlertSequence, hplug, hact, hsi, AlertState.idle]
  · cases hsi : st.shutdown_initiated <;>
      simp [tick, stopAlertSequence, hplug, hact, hsi, hmr, AlertState.idle]

/-- C3 witness: cancellation from the shutdown countdown on a concrete
unplugged sample, including the Shutdown Trigger cancel call. -/
theorem c3_unplug_witness :
    loopLive lsPending ∧ lsPending.state.is_active = true ∧
    sUnplugged.is_plugged = false ∧
    ((tick cfg95 (some sUnplugged) lsPending).1.state = AlertState.idle ∧
     (tick cfg95 (some sUnplugged) lsPending).1.state.warning_count = 0 ∧
     (tick cfg95 (some sUnplugged) lsPending).1.phase = Phase.stopped ∧
     (Event.cancelShutdown ∈ (tick cfg95 (some sUnplugged) lsPending).2 ↔
       lsPending.state.shutdown_initiated = true)) :=
  ⟨Or.inr ⟨rfl, by decide⟩, rfl, rfl,
   c3_unplug_resets_within_one_tick cfg95 sUnplugged lsPending
     (Or.inr ⟨rfl, by decide⟩) rfl rfl⟩

/-- The every-sample loop of `_notify_callbacks` invokes each callback in
order, whatever raises. -/
theorem foldl_notifyStep_fst (beh : α → Bool) (cbs : List α)
    (acc : List α × Nat) :
    (List.foldl (notifyStep beh) acc cbs).1 = acc.1 ++ cbs := by
  induction cbs generalizing acc with
  | nil => simp
  | cons c cs ih =>
    cases hbc : beh c <;>
      simp [notifyStep, invokeSubscriber, hbc, ih, List.append_assoc]

/-- The every-sample loop counts exactly the raising callbacks as caught
errors. -/
theorem foldl_notifyStep_snd (beh : α → Bool) (cbs : List α)
    (acc : List α × Nat) :
    (List.foldl (notifyStep beh) acc cbs).2 = acc.2 + (cbs.filter beh).length := by
  induction cbs generalizing acc with
  | nil => simp
  | cons c cs ih =>
    cases hbc : beh c <;>
      simp [notifyStep, invokeSubscriber, hbc, ih] <;> omega

/-- The threshold loop invokes, in order, exactly the pairs whose
threshold the sample meets, whatever raises. -/
theorem foldl_thresholdStep_fst (beh : α → Bool) (s : BatteryStatus)
    (tcbs : List (Int × α)) (acc : List α × Nat) :
    (List.foldl (thresholdStep beh s) acc tcbs).1 =
      acc.1 ++ (tcbs.filter (fun tc => decide (s.percent ≥ tc.1))).map Prod.snd := by
  induction tcbs generalizing acc with
  | nil => simp
  | cons tc tcs ih =>
    by_cases ht : s.percent ≥ tc.1
    · cases hbc : beh tc.2 <;>
        simp [thresholdStep, notifyStep, invokeSubscriber, ht, hbc, ih,
          List.append_assoc]
    · simp [thresholdStep, ht, ih]

/-- The threshold loop counts exactly the raising invoked callbacks. -/
theorem foldl_thresholdStep_snd (beh : α → Bool) (s : BatteryStatus)
    (tcbs : List (Int × α)) (acc : List α × Nat) :
    (List.foldl (thresholdStep beh s) acc tcbs).2 =
      acc.2 + (((tcbs.filter (fun tc => decide (s.percent ≥ tc.1))).map
        Prod.snd).filter beh).length := by
  induction tcbs generalizing acc with
  | nil => simp
  | cons tc tcs ih =>
    by_cases ht : s.percent ≥ tc.1
    · cases hbc : beh tc.2 <;>
        simp [thresholdStep, notifyStep, invokeSubscriber, ht, hbc, ih] <;> omega
    · simp [thresholdStep, ht, ih]

/-- C8: on a successful sample, `_notify_callbacks` invokes every
every-sample subscriber in registration order, followed — only when the
sample is plugged — by exactly those `(threshold, subscriber)` pairs with
`percent >= threshold`, in registration order. -/
theorem c8_notification_order (beh : α → Bool) (cbs : List α)
    (tcbs : List (Int × α)) (s : BatteryStatus) :
    (notifyCallbacks beh cbs tcbs s).1 =
      cbs ++ (if s.is_plugged then
        (tcbs.filter (fun tc => decide (s.percent ≥ tc.1))).map Prod.snd
      else []) := by
  cases hp : s.is_plugged <;>
    simp [notifyCallbacks, hp, foldl_notifyStep_fst, foldl_thresholdStep_fst]

/-- C9: a subscriber exception is caught (counted, never propagated): the
invocation sequence of `_notify_callbacks` is the same as with no raising
subscriber at all, the caught-error count is exactly the number of raising
invoked subscribers, and one iteration of `_monitor_loop` leaves the
loop's continuation flag untouched. -/
theorem c9_subscriber_isolation (beh : α → Bool) (cbs : List α)
    (tcbs : List (Int × α)) (s : BatteryStatus)
    (lastStatus : Option BatteryStatus) (running : Bool) :
    (notifyCallbacks beh cbs tcbs s).1 =
      (notifyCallbacks (fun _ => false) cbs tcbs s).1 ∧
    (notifyCallbacks beh cbs tcbs s).2 =
      (((notifyCallbacks beh cbs tcbs s).1).filter beh).length ∧
    (monitorLoopIter beh cbs tcbs (some s) lastStatus running).2.2 = running := by
  refine ⟨?_, ?_, ?_⟩
  · cases hp : s.is_plugged <;>
      simp [notifyCallbacks, hp, foldl_notifyStep_fst, foldl_thresholdStep_fst]
  · cases hp : s.is_plugged <;>
      simp [notifyCallbacks, hp, foldl_notifyStep_fst, foldl_thresholdStep_fst,
        foldl_notifyStep_snd, foldl_thresholdStep_snd, List.filter_append]
  · cases running <;> simp [monitorLoopIter]

/-- Appending traces adds their Shutdown Trigger call counts. -/
theorem triggerCount_append (a b : List Event) :
    triggerCount (a ++ b) = triggerCount a + triggerCount b := by
  simp [triggerCount, List.filter_append]

/-- A stopped loop ticks to itself and emits nothing. -/
theorem tick_stopped (cfg : EscalationConfig) (last : Option BatteryStatus)
    (ls : LoopState) (h : ls.phase = Phase.stopped) :
    tick cfg last ls = (ls, []) := by
  obtain ⟨st, sl, ph, mr⟩ := ls
  replace h : ph = Phase.stopped := h
  subst h
  rfl

/-- Each tick schedules at most one shutdown, and only from a state that
had not yet initiated one, entering the initiated state as it does. -/
theorem tick_trigger_char (cfg : EscalationConfig) (last : Option BatteryStatus)
    (ls : LoopState) :
    triggerCount (tick cfg last ls).2 = 0 ∨
      (triggerCount (tick cfg last ls).2 = 1 ∧
        ls.state.shutdown_initiated = false ∧
        (tick cfg last ls).1.state.shutdown_initiated = true) := by
  obtain ⟨st, sl, ph, mr⟩ := ls
  cases ph <;> cases last <;>
    simp only [tick, stopAlertSequence] <;> (try split_ifs) <;>
    simp_all [triggerCount, Event.isTrigger, AlertState.idle]

/-- A sequence that has initiated its shutdown, or whose loop has
returned, stays that way across a tick. -/
theorem tick_preserves_seqDone (cfg : EscalationConfig)
    (last : Option BatteryStatus) (ls : LoopState) (h : seqDone ls) :
    seqDone (tick cfg last ls).1 := by
  obtain ⟨st, sl, ph, mr⟩ := ls
  simp only [seqDone] at h ⊢
  cases ph <;> cases last <;>
    simp only [tick, stopAlertSequence] <;> (try split_ifs) <;>
    simp_all [AlertState.idle]

/-- A tick from a done sequence schedules nothing. -/
theorem tick_seqDone_no_trigger (cfg : EscalationConfig)
    (last : Option BatteryStatus) (ls : LoopState) (h : seqDone ls) :
    triggerCount (tick cfg last ls).2 = 0 := by
  rcases tick_trigger_char cfg last ls with h0 | ⟨h1, hfalse, _⟩
  · exact h0
  · rcases h with hsi | hstop
    · rw [hsi] at hfalse; cases hfalse
    · rw [tick_stopped cfg last ls hstop] at h1; cases h1

/-- A run from a done sequence schedules nothing. -/
theorem runEvents_seqDone_no_trigger (cfg : EscalationConfig)
    (statuses : List (Option BatteryStatus)) (ls : LoopState)
    (h : seqDone ls) :
    triggerCount (runEvents cfg ls statuses).2 = 0 := by
  induction statuses generalizing ls with
  | nil => rfl
  | cons s rest ih =>
    simp only [runEvents, triggerCount_append]
    rw [tick_seqDone_no_trigger cfg s ls h,
      ih _ (tick_preserves_seqDone cfg s ls h)]

/-- C4: over any run of the escalation loop, the transition to
SHUTDOWN_PENDING — the delayed-shutdown schedule call — happens at most
once, even when the max-warnings and max-time conditions hold
simultaneously: once `shutdown_initiated` is set the loop leaves
`_escalation_loop` and never issues another schedule call. -/
theorem c4_shutdown_scheduled_at_most_once (cfg : EscalationConfig)
    (ls : LoopState) (statuses : List (Option BatteryStatus)) :
    triggerCount (runEvents cfg ls statuses).2 ≤ 1 := by
  induction statuses generalizing ls with
  | nil => simp [runEvents, triggerCount]
  | cons s rest ih =>
    simp only [runEvents, triggerCount_append]
    rcases tick_trigger_char cfg s ls with h0 | ⟨h1, _, hpost⟩
    · rw [h0]; simpa using ih (tick cfg s ls).1
    · rw [h1]
      have hdone : seqDone (tick cfg s ls).1 := Or.inl hpost
      rw [runEvents_seqDone_no_trigger cfg rest _ hdone]

/-- A tick of an active, plugged, non-initiated state with neither
shutdown condition met and the warning interval not yet reached: only the
clocks advance. -/
theorem tick_active_quiet (cfg : EscalationConfig) (s : BatteryStatus)
    (hp : s.is_plugged = true) (c e : Nat) (act : Bool) (stg : WarningStage)
    (sl mr : Nat) (hc : c < cfg.max_warnings)
    (he : e + 1 < cfg.max_time_minutes * 60)
    (hq : sl + 1 < cfg.warning_interval_seconds) :
    tick cfg (some s)
      { state := { warning_count := c, elapsed_seconds := e, is_active := act,
                   current_stage := stg, shutdown_initiated := false },
        sinceLastWarning := sl, phase := Phase.escalating,
        monitorRemaining := mr } =
      ({ state := { warning_count := c, elapsed_seconds := e + 1,
                    is_active := act, current_stage := stg,
                    shutdown_initiated := false },
         sinceLastWarning := sl + 1, phase := Phase.escalating,
         monitorRemaining := mr },
       []) := by
  have hcond : ¬(c ≥ cfg.max_warnings ∨ e + 1 ≥ cfg.max_time_minutes * 60) := by
    omega
  have hq2 : ¬(sl + 1 ≥ cfg.warning_interval_seconds) := by omega
  simp [tick, hp, hcond, hq2]

/-- A tick of an active, plugged, non-initiated state with neither
shutdown condition met and the warning interval reached: the warning count
increments and the stage is recomputed from it. -/
theorem tick_active_fire (cfg : EscalationConfig) (s : BatteryStatus)
    (hp : s.is_plugged = true) (c e : Nat) (act : Bool) (stg : WarningStage)
    (sl mr : Nat) (hc : c < cfg.max_warnings)
    (he : e + 1 < cfg.max_time_minutes * 60)
    (hf : sl + 1 ≥ cfg.warning_interval_seconds) :
    tick cfg (some s)
      { state := { warning_count := c, elapsed_seconds := e, is_active := act,
                   current_stage := stg, shutdown_initiated := false },
        sinceLastWarning := sl, phase := Phase.escalating,
        monitorRemaining := mr } =
      ({ state := { warning_count := c + 1, elapsed_seconds := e + 1,
                    is_active := act, current_stage := stageFor (c + 1),
                    shutdown_initiated := false },
         sinceLastWarning := 0, phase := Phase.escalating,
         monitorRemaining := mr },
       [Event.closeAll, Event.showWarning (c + 1) (stageFor (c + 1))]) := by
  have hcond : ¬(c ≥ cfg.max_warnings ∨ e + 1 ≥ cfg.max_time_minutes * 60) := by
    omega
  simp [tick, hp, hcond, hf]

/-- Closed form of the escalation loop from a fresh active sequence under
a constantly plugged sample, while neither shutdown condition has fired:
after `n` ticks the warning count is `n / warning_interval_seconds`, the
stage is its fixed image, and the clocks read `n`. -/
theorem escalation_run_invariant (cfg : EscalationConfig) (s : BatteryStatus)
    (hp : s.is_plugged = true) (hw : 1 ≤ cfg.warning_interval_seconds) :
    ∀ n, n < cfg.max_time_minutes * 60 →
      n / cfg.warning_interval_seconds < cfg.max_warnings →
      stepN cfg (some s) freshActive n =
        { state := { warning_count := n / cfg.warning_interval_seconds,
                     elapsed_seconds := n, is_active := true,
                     current_stage := stageFor (n / cfg.warning_interval_seconds),
                     shutdown_initiated := false },
          sinceLastWarning := n % cfg.warning_interval_seconds,
          phase := Phase.escalating, monitorRemaining := 0 } := by
  intro n
  induction n with
  | zero =>
    intro _ _
    simp [stepN, freshActive, stageFor]
  | succ n ih =>
    intro h1 h2
    have hn1 : n < cfg.max_time_minutes * 60 := Nat.lt_of_succ_lt h1
    have hdivle : n / cfg.warning_interval_seconds ≤
        (n + 1) / cfg.warning_interval_seconds :=
      Nat.div_le_div_right (Nat.le_succ n)
    have h2n : n / cfg.warning_interval_seconds < cfg.max_warnings :=
      Nat.lt_of_le_of_lt hdivle h2
    have hid := Nat.div_add_mod n cfg.warning_interval_seconds
    have hmodlt : n % cfg.warning_interval_seconds <
        cfg.warning_interval_seconds := Nat.mod_lt n (by omega)
    rw [stepN, ih hn1 h2n]
    by_cases hfire :
        n % cfg.warning_interval_seconds + 1 ≥ cfg.warning_interval_seconds
    · have hsplit : n + 1 =
          cfg.warning_interval_seconds * (n / cfg.warning_interval_seconds + 1) := by
        rw [Nat.mul_succ]; omega
      have hdiv2 : (n + 1) / cfg.warning_interval_seconds =
          n / cfg.warning_interval_seconds + 1 := by
        rw [hsplit, Nat.mul_div_cancel_left _ (show 0 < cfg.warning_interval_seconds by omega)]
      have hmod2 : (n + 1) % cfg.warning_interval_seconds = 0 := by
        rw [hsplit, Nat.mul_mod_right]
      rw [tick_active_fire cfg s hp _ _ _ _ _ _ h2n h1 hfire, hdiv2, hmod2]
    · have hq : n % cfg.warning_interval_seconds + 1 <
          cfg.warning_interval_seconds := by omega
      have hsum : n + 1 =
          cfg.warning_interval_seconds * (n / cfg.warning_interval_seconds) +
            (n % cfg.warning_interval_seconds + 1) := by omega
      have hdiv2 : (n + 1) / cfg.warning_interval_seconds =
          n / cfg.warning_interval_seconds := by
        rw [hsum, Nat.mul_add_div (by omega : 0 < cfg.warning_interval_seconds),
          Nat.div_eq_of_lt hq, Nat.add_zero]
      have hmod2 : (n + 1) % cfg.warning_interval_seconds =
          n % cfg.warning_interval_seconds + 1 := by
        rw [hsum, Nat.mul_add_mod, Nat.mod_eq_of_lt hq]
      rw [tick_active_quiet cfg s hp _ _ _ _ _ _ h2n h1 hq, hdiv2, hmod2]

/-- C5: while the sequence is active and not pending shutdown, the warning
count after `n` seconds is exactly `n / warning_interval_seconds` — it
increases by exactly one every interval — and the current stage is the
fixed image of the count under the hardcoded mapping: count 1 is TOAST,
counts 2–5 POPUP, counts 6–10 MODAL, with no dependence on
`max_warnings`. -/
theorem c5_warning_count_periodic (cfg : EscalationConfig) (s : BatteryStatus)
    (n : Nat) (hp : s.is_plugged = true)
    (hw : 1 ≤ cfg.warning_interval_seconds)
    (h1 : n < cfg.max_time_minutes * 60)
    (h2 : n / cfg.warning_interval_seconds < cfg.max_warnings) :
    (stepN cfg (some s) freshActive n).state.warning_count =
      n / cfg.warning_interval_seconds ∧
    (stepN cfg (some s) freshActive n).state.shutdown_initiated = false ∧
    (stepN cfg (some s) freshActive n).state.current_stage =
      stageFor ((stepN cfg (some s) freshActive n).state.warning_count) ∧
    stageFor 1 = WarningStage.TOAST ∧
    (∀ c, 2 ≤ c → c ≤ 5 → stageFor c = WarningStage.POPUP) ∧
    (∀ c, 6 ≤ c → c ≤ 10 → stageFor c = WarningStage.MODAL) := by
  rw [escalation_run_invariant cfg s hp hw n h1 h2]
  refine ⟨rfl, rfl, rfl, rfl, ?_, ?_⟩
  · intro c hc1 hc2
    unfold stageFor
    rw [if_neg (by omega), if_pos (by omega)]
  · intro c hc1 hc2
    unfold stageFor
    rw [if_neg (by omega), if_neg (by omega)]

/-- C5 witness: the scenario configuration after 90 s — three warnings,
POPUP stage. -/
theorem c5_warning_count_witness :
    (stepN cfg95 (some s96) freshActive 90).state.warning_count =
      90 / cfg95.warning_interval_seconds ∧
    (stepN cfg95 (some s96) freshActive 90).state.shutdown_initiated = false ∧
    (stepN cfg95 (some s96) freshActive 90).state.current_stage =
      stageFor ((stepN cfg95 (some s96) freshActive 90).state.warning_count) ∧
    stageFor 1 = WarningStage.TOAST ∧
    (∀ c, 2 ≤ c → c ≤ 5 → stageFor c = WarningStage.POPUP) ∧
    (∀ c, 6 ≤ c → c ≤ 10 → stageFor c = WarningStage.MODAL) :=
  c5_warning_count_periodic cfg95 s96 90 rfl (by decide) (by decide) (by decide)

end BatteryGuardian
